import Mathlib

set_option linter.unusedVariables false

/-!
Shallow embedding of the GPRO-Graphics1 repository: the `vec3` union type
and its C++ operator API, the C-style pointer function API
(`vec3default`, `vec3init`, `vec3copy`, `vec3add`, `vec3sum`), the `ray`
type, `ray_color`, `write_color`, and the output produced by `main`.

Machine `float` arithmetic is modelled by exact rationals.  Where a
decimal literal is not exactly representable in IEEE-754 binary32 and the
exact value could matter, the exact value of the binary32 literal is
used and noted at the definition.  `sqrt` has no rational-valued
implementation, so the functions that use it (`length`, `unit_vector`,
`ray_color`) take the square-root function as an explicit parameter;
concrete evaluations use `sqrtQ`, which is exact on perfect squares.

Buffer mutation in the C API is modelled by value passing: each function
receives the prior contents of its output buffer and returns the new
contents, matching the source functions, every one of which returns the
pointer to its output buffer.
-/

namespace Gpro

/-- Model of C++ `static_cast<int>` applied to a floating value:
truncation toward zero. -/
def truncF (q : ℚ) : ℤ := if 0 ≤ q then ⌊q⌋ else ⌈q⌉

/-- The `union vec3` of gproVector.h: three floats.  In the source the
array member `float3 e` and the named members `x, y, z` alias the same
storage; here the three components are the single storage and both the
array-indexed and the named accessors read them. -/
structure vec3 where
  e0 : ℚ
  e1 : ℚ
  e2 : ℚ
deriving DecidableEq

/-- `float3`: a raw 3-float buffer.  The union layout makes a `vec3` and
a `float3` interchangeable views of three floats, so the buffer type is
the same triple of components. -/
abbrev float3 := vec3

namespace vec3

/-- Named member `x`, aliasing `e[0]` in the union. -/
def x (v : vec3) : ℚ := v.e0

/-- Named member `y`, aliasing `e[1]` in the union. -/
def y (v : vec3) : ℚ := v.e1

/-- Named member `z`, aliasing `e[2]` in the union. -/
def z (v : vec3) : ℚ := v.e2

/-- `operator[]`: component by index.  The source does no bounds check
(out-of-range is undefined behavior), so the index is a `Fin 3`. -/
def get (v : vec3) (i : Fin 3) : ℚ :=
  match i with
  | ⟨0, _⟩ => v.e0
  | ⟨1, _⟩ => v.e1
  | ⟨2, _⟩ => v.e2

/-- `vec3::vec3()`: default constructor, all components zero. -/
def mkDefault : vec3 := ⟨0, 0, 0⟩

/-- `vec3::vec3(float xc, float yc, float zc)`: init constructor. -/
def init (xc yc zc : ℚ) : vec3 := ⟨xc, yc, zc⟩

/-- `vec3::operator+=`: componentwise add of `rh` into `this`; the new
value of the mutated left operand. -/
def addAssign (a rh : vec3) : vec3 := ⟨a.e0 + rh.e0, a.e1 + rh.e1, a.e2 + rh.e2⟩

/-- `vec3::operator+` exactly as the source writes it:
`return vec3(e[0] + e[0], e[1] + e[1], e[2] + e[2]);` — it reads only
`this` (each component added to itself) and never reads `rh`. -/
def opAdd (a rh : vec3) : vec3 := ⟨a.e0 + a.e0, a.e1 + a.e1, a.e2 + a.e2⟩

/-- Unary `operator-`: componentwise negation. -/
def neg (v : vec3) : vec3 := ⟨-v.e0, -v.e1, -v.e2⟩

/-- `vec3::length_squared()`: `e[0]*e[0] + e[1]*e[1] + e[2]*e[2]`. -/
def length_squared (v : vec3) : ℚ := v.e0 * v.e0 + v.e1 * v.e1 + v.e2 * v.e2

/-- `vec3::length()`: `sqrt(length_squared())`, with the square-root
function supplied as a parameter. -/
def length (sqrt : ℚ → ℚ) (v : vec3) : ℚ := sqrt v.length_squared

end vec3

/-- Free `operator-`: componentwise difference. -/
def opSub (u v : vec3) : vec3 := ⟨u.e0 - v.e0, u.e1 - v.e1, u.e2 - v.e2⟩

/-- Free `operator*(point3, vec3)`: componentwise product. -/
def opMulVec (u v : vec3) : vec3 := ⟨u.e0 * v.e0, u.e1 * v.e1, u.e2 * v.e2⟩

/-- Free `operator*(float, vec3)`: scale every component by `t`. -/
def mulScalar (t : ℚ) (v : vec3) : vec3 := ⟨t * v.e0, t * v.e1, t * v.e2⟩

/-- Free `operator/(vec3, float)`: `(1 / t) * v`. -/
def divScalar (v : vec3) (t : ℚ) : vec3 := mulScalar (1 / t) v

/-- Free `dot`: `u.e[0]*v.e[0] + u.e[1]*v.e[1] + u.e[2]*v.e[2]`.  The
source returns `double`; the float products and sums are computed first
and the widening conversion is exact, so over ℚ the value is the same
expression. -/
def dot (u v : vec3) : ℚ := u.e0 * v.e0 + u.e1 * v.e1 + u.e2 * v.e2

/-- Free `cross`, transcribed from the source. -/
def cross (u v : vec3) : vec3 :=
  ⟨u.e1 * v.e2 - u.e2 * v.e1, u.e2 * v.e0 - u.e0 * v.e2, u.e0 * v.e1 - u.e1 * v.e0⟩

/-- `unit_vector(v)`: `v / v.length()`. -/
def unit_vector (sqrt : ℚ → ℚ) (v : vec3) : vec3 := divScalar v (v.length sqrt)

/-- `vec3default`: write (0,0,0) into the output buffer (the prior
contents are ignored) and return it. -/
def vec3default (v_out : float3) : float3 := ⟨0, 0, 0⟩

/-- `vec3init`: write the three given floats into the output buffer. -/
def vec3init (v_out : float3) (xc yc zc : ℚ) : float3 := ⟨xc, yc, zc⟩

/-- `vec3copy`: copy the right-hand buffer into the output buffer. -/
def vec3copy (v_out : float3) (v_rh : float3) : float3 := v_rh

/-- `vec3add`: add the right-hand buffer componentwise into the
left-hand buffer and return it. -/
def vec3add (v_lh_sum : float3) (v_rh : float3) : float3 :=
  ⟨v_lh_sum.e0 + v_rh.e0, v_lh_sum.e1 + v_rh.e1, v_lh_sum.e2 + v_rh.e2⟩

/-- `vec3sum`: write the componentwise sum of the two operand buffers
into the output buffer, via `vec3init` exactly as the source does. -/
def vec3sum (v_sum : float3) (v_lh : float3) (v_rh : float3) : float3 :=
  vec3init v_sum (v_lh.e0 + v_rh.e0) (v_lh.e1 + v_rh.e1) (v_lh.e2 + v_rh.e2)

/-- The `ray` class: origin point and direction vector. -/
structure ray where
  orig : vec3
  dir : vec3

/-- `ray::direction()`. -/
def ray.direction (r : ray) : vec3 := r.dir

/-- `ray::at(t)`: `orig + t * dir`.  The `+` here is the member
`vec3::operator+`, so this inherits its behavior. -/
def ray.at (r : ray) (t : ℚ) : vec3 := vec3.opAdd r.orig (mulScalar t r.dir)

/-- Exact value of the IEEE-754 binary32 literal `0.7f`
(= 11744051 · 2⁻²⁴ = 0.699999988079071044921875). -/
def c07 : ℚ := 11744051 / 16777216

/-- `ray_color` from the main source file: normalize the ray direction,
set `t = 0.5f * (unit_direction.y + 1.0f)`, and return
`(1.0f - t) * color(1.0, 1.0, 1.0) + t * color(0.5f, 0.7f, 1.0f)`.
The `+` in that expression is the member `vec3::operator+`. -/
def ray_color (sqrt : ℚ → ℚ) (r : ray) : vec3 :=
  let unit_direction := unit_vector sqrt r.direction
  let t : ℚ := (1 / 2) * (unit_direction.y + 1)
  vec3.opAdd (mulScalar (1 - t) (vec3.init 1 1 1)) (mulScalar t (vec3.init (1 / 2) c07 1))

/-- The color mapping as the spec words it: the true componentwise
linear interpolation (1−t)·(1,1,1) + t·(0.5, 0.7, 1.0), stated from the
spec's sentence for comparison with `ray_color`. -/
def spec_lerp_white_skyblue (t : ℚ) : vec3 :=
  ⟨(1 - t) * 1 + t * (1 / 2), (1 - t) * 1 + t * (7 / 10), (1 - t) * 1 + t * 1⟩

/-- Rational square root used at concrete evaluation points: exact
whenever numerator and denominator are perfect squares (in particular on
perfect-square naturals). -/
def sqrtQ (q : ℚ) : ℚ := (Nat.sqrt q.num.toNat : ℚ) / (Nat.sqrt q.den : ℚ)

/-- Exact value of the IEEE-754 binary32 literal `255.999f`
(= 16777150 · 2⁻¹⁶ = 255.998992919921875). -/
def scale255 : ℚ := 16777150 / 65536

/-- `write_color`: one output line, each component scaled by `255.999f`
and truncated to an `int`, the three integers space-separated. -/
def write_color (pixel_color : vec3) : String :=
  toString (truncF (scale255 * pixel_color.x)) ++ " "
    ++ toString (truncF (scale255 * pixel_color.y)) ++ " "
    ++ toString (truncF (scale255 * pixel_color.z)) ++ "\n"

/-- `const float aspect_ratio = 16.0f / 9.0f`.  (The binary32 quotient
is 1.7777777910232544…; with it, `400 / aspect_ratio` rounds to exactly
225.0f, so the derived height below is 225 under float semantics as well
as under exact rationals.) -/
def aspect_ratio : ℚ := 16 / 9

/-- `const int image_width = 400`. -/
def image_width : ℤ := 400

/-- `const int image_height = static_cast<int>(image_width / aspect_ratio)`. -/
def image_height : ℤ := truncF ((image_width : ℚ) / aspect_ratio)

/-- Everything `main` writes to the output file `image.ppm`: the single
header write `file << "P3\n" << image_width << ' ' << image_height <<
"\n255\n";`.  The pixel loop computes `pixel_color = ray_color(r)` for
every pixel but never writes it to `file` (it writes only scanline
progress to `cerr`), so the header is the entire file content. -/
def mainFileContent : String :=
  "P3\n" ++ toString image_width ++ " " ++ toString image_height ++ "\n255\n"

/-- The `testVector` function-API chain, threading buffer contents
through the calls exactly as the source does; the four arguments are the
arbitrary initial (uninitialized) contents of the stack buffers
`av, bv, cv, dv`.  Returns the final contents of `dv`. -/
def testVector_d (av0 bv0 cv0 dv0 : float3) : float3 :=
  let av := vec3default av0
  let bv := vec3init bv0 1 2 3
  let cv := vec3init cv0 4 5 6
  let dv := vec3copy dv0 cv
  let av := vec3copy av dv
  let dv := vec3add dv bv
  let dv := vec3sum dv bv bv
  let dv := vec3add (vec3sum dv cv bv) av
  dv

end Gpro

namespace Gpro

/-- Helper: the derived image height evaluates to 225. -/
lemma image_height_eval : image_height = 225 := by
  norm_num [image_height, image_width, aspect_ratio, truncF]

/-- Helper: `255.999f * 1.0f` truncated to an int is 255. -/
lemma truncF_scale255_one : truncF (scale255 * (1 : ℚ)) = 255 := by
  norm_num [truncF, scale255]

/-- C1: the claim says `a + b` is the componentwise sum of a and b; the
source's `vec3::operator+` instead doubles the left operand: at
a = (1,2,3), b = (4,5,6) it returns (2,4,6), not (5,7,9). -/
theorem C1_opAdd_doubles_left :
    vec3.opAdd ⟨1, 2, 3⟩ ⟨4, 5, 6⟩ = ⟨2, 4, 6⟩ ∧
      vec3.opAdd ⟨1, 2, 3⟩ ⟨4, 5, 6⟩ ≠ ⟨5, 7, 9⟩ := by
  norm_num [vec3.opAdd, vec3.mk.injEq]

/-- C2: with width 400 and height 225, the whole content `main` writes
to the output file is the three header lines — the pixel loop never
writes any pixel line, so no 400×225 pixel lines follow. -/
theorem C2_main_output_is_header_only :
    mainFileContent = "P3\n400 225\n255\n" := by
  unfold mainFileContent image_width
  rw [image_height_eval]
  rfl

/-- C3: the claim says `ray_color` returns the linear interpolation
(1−t)·(1,1,1) + t·(0.5,0.7,1.0).  At direction (0,0,−1) (unit length,
y = 0, so t = 1/2) the source returns (1,1,1) — the white term doubled
by the defective `operator+` — while the interpolation the claim states
is (3/4, 17/20, 1) ≈ (0.75, 0.85, 1.0). -/
theorem C3_ray_color_not_lerp :
    ray_color sqrtQ ⟨⟨0, 0, 0⟩, ⟨0, 0, -1⟩⟩ = ⟨1, 1, 1⟩ ∧
      spec_lerp_white_skyblue (1 / 2) = ⟨3 / 4, 17 / 20, 1⟩ ∧
      ray_color sqrtQ ⟨⟨0, 0, 0⟩, ⟨0, 0, -1⟩⟩ ≠ spec_lerp_white_skyblue (1 / 2) := by
  norm_num [ray_color, unit_vector, divScalar, mulScalar, vec3.length, vec3.length_squared,
    sqrtQ, ray.direction, vec3.y, vec3.init, vec3.opAdd, spec_lerp_white_skyblue,
    vec3.mk.injEq]

/-- C4: the claim says the buffer written by `vec3sum(out, a, b)` equals
the value `a + b`.  At a = (2,3,4), b = (10,20,30) the function API
yields the true sum (12,23,34) while the value-type `operator+` yields
(4,6,8): the two APIs disagree on the sum operation. -/
theorem C4_vec3sum_vs_opAdd :
    vec3sum ⟨0, 0, 0⟩ ⟨2, 3, 4⟩ ⟨10, 20, 30⟩ = ⟨12, 23, 34⟩ ∧
      vec3.opAdd ⟨2, 3, 4⟩ ⟨10, 20, 30⟩ = ⟨4, 6, 8⟩ ∧
      vec3sum ⟨0, 0, 0⟩ ⟨2, 3, 4⟩ ⟨10, 20, 30⟩ ≠ vec3.opAdd ⟨2, 3, 4⟩ ⟨10, 20, 30⟩ := by
  norm_num [vec3sum, vec3init, vec3.opAdd, vec3.mk.injEq]

/-- C5: the claim says `a + b = b + a` componentwise within tolerance;
the source's `operator+` gives a + b = 2a, so at a = (1,0,0),
b = (0,1,0) the two orders give (2,0,0) and (0,2,0), differing by 2 in
two components — beyond any floating-point tolerance. -/
theorem C5_opAdd_not_commutative :
    vec3.opAdd ⟨1, 0, 0⟩ ⟨0, 1, 0⟩ = ⟨2, 0, 0⟩ ∧
      vec3.opAdd ⟨0, 1, 0⟩ ⟨1, 0, 0⟩ = ⟨0, 2, 0⟩ ∧
      vec3.opAdd ⟨1, 0, 0⟩ ⟨0, 1, 0⟩ ≠ vec3.opAdd ⟨0, 1, 0⟩ ⟨1, 0, 0⟩ := by
  norm_num [vec3.opAdd, vec3.mk.injEq]

/-- C6: the `testVector` function-API chain starting from a=(0,0,0),
b=(1,2,3), c=(4,5,6) ends with d = (9,12,15), whatever the initial
(uninitialized) contents of the four stack buffers were. -/
theorem C6_testVector_chain (av0 bv0 cv0 dv0 : float3) :
    testVector_d av0 bv0 cv0 dv0 = ⟨9, 12, 15⟩ := by
  norm_num [testVector_d, vec3default, vec3init, vec3copy, vec3add, vec3sum, vec3.mk.injEq]

/-- C7: `dot(v, v)` equals `v.length_squared()` exactly: both are the
sum of componentwise products of v with itself, the same formula. -/
theorem C7_dot_self_eq_length_squared (v : vec3) : dot v v = v.length_squared := rfl

/-- C8: constructing a vec3 from three scalars and reading each
component back by name (.x/.y/.z) and by index (0/1/2) yields identical
values. -/
theorem C8_named_indexed_agree (xc yc zc : ℚ) :
    (vec3.init xc yc zc).x = (vec3.init xc yc zc).get 0 ∧
      (vec3.init xc yc zc).y = (vec3.init xc yc zc).get 1 ∧
      (vec3.init xc yc zc).z = (vec3.init xc yc zc).get 2 :=
  ⟨rfl, rfl, rfl⟩

/-- C9: `cross(u, v)` is the right-handed 3D cross product
(u.y·v.z − u.z·v.y, u.z·v.x − u.x·v.z, u.x·v.y − u.y·v.x). -/
theorem C9_cross_right_handed (u v : vec3) :
    cross u v = ⟨u.y * v.z - u.z * v.y, u.z * v.x - u.x * v.z, u.x * v.y - u.y * v.x⟩ :=
  rfl

/-- C10: `write_color` on the color (1,1,1) emits the line
"255 255 255": scaling 1.0 by the float literal 255.999f and truncating
to an int gives 255, not 256. -/
theorem C10_write_color_of_one : write_color ⟨1, 1, 1⟩ = "255 255 255\n" := by
  simp only [write_color, vec3.x, vec3.y, vec3.z]
  rw [truncF_scale255_one]
  rfl

end Gpro
